import Mathlib

/-!
A shallow embedding of `src/timer.py`, a stopwatch implemented as a Python
context manager, together with proofs about its behaviour.

Modelling choices:

* A time source (`timeit.default_timer` or a user-supplied generator) is a
  stream `ℕ → ℚ` of successive readings; the Timer state carries a counter
  `tick` recording how many readings have been consumed, so each call of
  `self.timer()` returns the next value of the stream.  Numeric values are
  rationals (exact arithmetic on the seconds values the source yields).
* Python instance attributes that may be absent are `Option` fields; reading
  an absent attribute raises `AttributeError`, modelled by `PyError`.
  The attribute `end` is three-valued: absent (`none`, before any scope
  entry), set to the sentinel `None` (`some none`, while the scope is open),
  or set to a number (`some (some q)`, after scope exit).
* Fallible operations return `Except PyError _ × Timer`, threading the
  (possibly partially mutated) instance state.
-/

/-- Python exceptions relevant to the embedded code: attribute lookup
failures on a named field, and arbitrary user exceptions raised inside a
`with` block, distinguished by a tag. -/
inductive PyError where
  | attributeError (field : String)
  | userExc (tag : Nat)
deriving DecidableEq, Repr

/-- Python runtime values the Timer code produces or receives: the `self`
reference returned by `__enter__`, the `None` value, numbers, bound methods
(identified by name), and exception-context objects passed to `__exit__`. -/
inductive Value where
  | selfRef
  | noneVal
  | num (q : ℚ)
  | method (name : String)
  | excInfo (e : PyError)
deriving DecidableEq, Repr

/-- Python truthiness of a value, as used by the `with` statement on the
result of `__exit__`: `None` and zero are falsy, everything else truthy. -/
def Value.truthy : Value → Bool
  | .noneVal => false
  | .num q => decide (q ≠ 0)
  | _ => true

/-- The state of one `Timer` instance from `src/timer.py`.

`timer` is the bound time-source stream and `tick` its consumption counter.
`start` models the instance attribute `start` (absent before scope entry).
`end_` models the attribute `end` (a Lean keyword forbids the bare name):
absent / `None` / numeric, see the file comment.  `elapsed_s` and
`elapsed_ms_attr` model the cached instance attributes `elapsed_s` and
`elapsed_ms` written by `__exit__` (the latter named apart from the
same-named method `elapsed_ms` of the class). -/
structure Timer where
  timer : ℕ → ℚ
  tick : ℕ
  start : Option ℚ
  end_ : Option (Option ℚ)
  elapsed_s : Option ℚ
  elapsed_ms_attr : Option ℚ

namespace Timer

/-- `Timer.__init__(self, timer=default_timer)`.  The body is
`self.timer = default_timer`: the `timer` parameter (modelled as an optional
argument) is accepted but the bound source is `default_timer` regardless.
No other attribute is set, so `start`, `end`, `elapsed_s`, `elapsed_ms`
are all absent on a fresh instance. -/
def init (default_timer : ℕ → ℚ) (timer : Option (ℕ → ℚ)) : Timer :=
  { timer := default_timer, tick := 0, start := none, end_ := none,
    elapsed_s := none, elapsed_ms_attr := none }

/-- One evaluation of `self.timer()`: return the next reading of the bound
stream and advance the consumption counter. -/
def read (s : Timer) : ℚ × Timer :=
  (s.timer s.tick, { s with tick := s.tick + 1 })

/-- `Timer.__call__(self)`: `return self.timer()`. -/
def call (s : Timer) : ℚ × Timer := s.read

/-- `Timer.__enter__(self)`: `self.start = self.timer(); self.end = None;
return self`. -/
def enter (s : Timer) : Timer × Value :=
  let r := s.read
  ({ r.2 with start := some r.1, end_ := some none }, Value.selfRef)

/-- `Timer.__exit__(self, exc_type, exc_value, exc_traceback)`:
`self.end = self.timer()`, then `self.elapsed_s = self.end - self.start`
(which raises `AttributeError` on `start` when `start` is absent, with
`end` already mutated), then `self.elapsed_ms = self.elapsed_s * 1000`.
The three exception-context parameters are never consulted and the method
returns `None`. -/
def exit (s : Timer) (exc_type exc_value exc_traceback : Value) :
    Except PyError Value × Timer :=
  let r := s.read
  let s2 : Timer := { r.2 with end_ := some (some r.1) }
  match s2.start with
  | none => (Except.error (PyError.attributeError "start"), s2)
  | some st =>
      let es := r.1 - st
      (Except.ok Value.noneVal,
        { s2 with elapsed_s := some es, elapsed_ms_attr := some (es * 1000) })

/-- The body of the method `Timer.elapsed(self)`:
`if self.end is None: return self.timer() - self.start
else: return self.end - self.start`.
Reading `self.end` on a fresh instance raises `AttributeError` on `end`;
in the `None` branch Python evaluates `self.timer()` before looking up
`self.start`, so the reading is consumed even when `start` is absent. -/
def elapsed (s : Timer) : Except PyError ℚ × Timer :=
  match s.end_ with
  | none => (Except.error (PyError.attributeError "end"), s)
  | some none =>
      let r := s.read
      match r.2.start with
      | none => (Except.error (PyError.attributeError "start"), r.2)
      | some st => (Except.ok (r.1 - st), r.2)
  | some (some e) =>
      match s.start with
      | none => (Except.error (PyError.attributeError "start"), s)
      | some st => (Except.ok (e - st), s)

/-- The body of the class-level method `Timer.elapsed_ms(self)`:
`if self.end is None: return (self.timer() - self.start) * 1000
else: return (self.end - self.start) * 1000`. -/
def elapsed_ms (s : Timer) : Except PyError ℚ × Timer :=
  match s.end_ with
  | none => (Except.error (PyError.attributeError "end"), s)
  | some none =>
      let r := s.read
      match r.2.start with
      | none => (Except.error (PyError.attributeError "start"), r.2)
      | some st => (Except.ok ((r.1 - st) * 1000), r.2)
  | some (some e) =>
      match s.start with
      | none => (Except.error (PyError.attributeError "start"), s)
      | some st => (Except.ok ((e - st) * 1000), s)

/-- Python attribute lookup of the name `elapsed_ms` on a Timer instance:
the instance dictionary (the cached attribute written by `__exit__`) shadows
the class dictionary (the method), so the lookup yields the cached number
when present and the bound method otherwise. -/
def getattrElapsedMs (s : Timer) : Value :=
  match s.elapsed_ms_attr with
  | some q => Value.num q
  | none => Value.method "elapsed_ms"

/-- The `with` statement applied to a Timer: call `__enter__`, run the
caller's body, then call `__exit__` on both the normal and the exceptional
path; when the body raised and `__exit__` returns a falsy value the
exception is re-raised, and an exception raised by `__exit__` itself
replaces the outcome. -/
def withStmt (s : Timer) (body : Timer → Except PyError Value × Timer) :
    Except PyError Value × Timer :=
  let en := s.enter
  match body en.1 with
  | (Except.ok v, s2) =>
      match s2.exit Value.noneVal Value.noneVal Value.noneVal with
      | (Except.ok _, s3) => (Except.ok v, s3)
      | (Except.error e2, s3) => (Except.error e2, s3)
  | (Except.error e, s2) =>
      match s2.exit (Value.excInfo e) (Value.excInfo e) Value.noneVal with
      | (Except.ok r, s3) =>
          if r.truthy then (Except.ok Value.noneVal, s3)
          else (Except.error e, s3)
      | (Except.error e2, s3) => (Except.error e2, s3)

end Timer

/-- C7: for every Timer state, `__enter__` reads the time source exactly once
(the counter advances by one), stores that reading as `start` whatever the
prior state was, resets `end` to the `None` sentinel, and returns the `self`
reference. -/
theorem enter_reads_once_overwrites_and_returns_self (s : Timer) :
    (s.enter).2 = Value.selfRef ∧
    (s.enter).1.start = some (s.timer s.tick) ∧
    (s.enter).1.end_ = some none ∧
    (s.enter).1.tick = s.tick + 1 ∧
    (s.enter).1.timer = s.timer := by
  refine ⟨rfl, rfl, rfl, rfl, rfl⟩

/-- C8: for every Timer state, `__call__` returns the current reading of the
bound time source and leaves `start`, `end` and both cached elapsed
attributes unchanged. -/
theorem call_returns_reading_and_preserves_fields (s : Timer) :
    (s.call).1 = s.timer s.tick ∧
    (s.call).2.start = s.start ∧
    (s.call).2.end_ = s.end_ ∧
    (s.call).2.elapsed_s = s.elapsed_s ∧
    (s.call).2.elapsed_ms_attr = s.elapsed_ms_attr := by
  refine ⟨rfl, rfl, rfl, rfl, rfl⟩

/-- C10: on a Timer whose scope was never entered (`start` absent),
`__exit__` raises `AttributeError` on `start`, and by then `end` has already
been set to a fresh time-source reading: the instance is left mutated. -/
theorem exit_before_entry_fails_after_mutating_end
    (s : Timer) (a b c : Value) (h : s.start = none) :
    (s.exit a b c).1 = Except.error (PyError.attributeError "start") ∧
    (s.exit a b c).2.end_ = some (some (s.timer s.tick)) := by
  simp [Timer.exit, Timer.read, h]

/-- Witness for C10 at a concrete never-entered Timer. -/
theorem exit_before_entry_fails_after_mutating_end_witness :
    (Timer.init (fun n => (n : ℚ)) none).start = none ∧
    (((Timer.init (fun n => (n : ℚ)) none).exit Value.noneVal Value.noneVal
        Value.noneVal).1 = Except.error (PyError.attributeError "start") ∧
     ((Timer.init (fun n => (n : ℚ)) none).exit Value.noneVal Value.noneVal
        Value.noneVal).2.end_ = some (some ((Timer.init (fun n => (n : ℚ)) none).timer
          (Timer.init (fun n => (n : ℚ)) none).tick))) :=
  ⟨rfl, exit_before_entry_fails_after_mutating_end _ _ _ _ rfl⟩

/-- C5: on a Timer whose scope was never entered (`start` absent), both
elapsed-time queries fail with an `AttributeError` (on `end` for a fresh
instance, on `start` otherwise) rather than returning a value. -/
theorem elapsed_queries_fail_before_entry (s : Timer) (h : s.start = none) :
    (∃ f, (s.elapsed).1 = Except.error (PyError.attributeError f)) ∧
    (∃ f, (s.elapsed_ms).1 = Except.error (PyError.attributeError f)) := by
  constructor
  · rcases he : s.end_ with _ | (_ | q)
    · exact ⟨"end", by simp [Timer.elapsed, he]⟩
    · exact ⟨"start", by simp [Timer.elapsed, Timer.read, he, h]⟩
    · exact ⟨"start", by simp [Timer.elapsed, he, h]⟩
  · rcases he : s.end_ with _ | (_ | q)
    · exact ⟨"end", by simp [Timer.elapsed_ms, he]⟩
    · exact ⟨"start", by simp [Timer.elapsed_ms, Timer.read, he, h]⟩
    · exact ⟨"start", by simp [Timer.elapsed_ms, he, h]⟩

/-- Witness for C5 at a concrete never-entered Timer. -/
theorem elapsed_queries_fail_before_entry_witness :
    (Timer.init (fun n => (n : ℚ)) none).start = none ∧
    ((∃ f, ((Timer.init (fun n => (n : ℚ)) none).elapsed).1 =
        Except.error (PyError.attributeError f)) ∧
     (∃ f, ((Timer.init (fun n => (n : ℚ)) none).elapsed_ms).1 =
        Except.error (PyError.attributeError f))) :=
  ⟨rfl, elapsed_queries_fail_before_entry _ rfl⟩

/-- C3: on a Timer whose `start` is set: while `end` holds the `None`
sentinel, `elapsed` returns a fresh time-source reading minus `start`
(consuming one reading) and once `end` holds a number it returns the fixed
`end - start`; `elapsed_ms` follows the same two branches with the result
multiplied by 1000. -/
theorem elapsed_two_branch (s : Timer) (st : ℚ) (h : s.start = some st) :
    (s.end_ = some none →
      s.elapsed = (Except.ok (s.timer s.tick - st), { s with tick := s.tick + 1 }) ∧
      s.elapsed_ms =
        (Except.ok ((s.timer s.tick - st) * 1000), { s with tick := s.tick + 1 })) ∧
    (∀ q, s.end_ = some (some q) →
      s.elapsed = (Except.ok (q - st), s) ∧
      s.elapsed_ms = (Except.ok ((q - st) * 1000), s)) := by
  constructor
  · intro he
    constructor
    · simp [Timer.elapsed, Timer.read, he, h]
    · simp [Timer.elapsed_ms, Timer.read, he, h]
  · intro q he
    constructor
    · simp [Timer.elapsed, he, h]
    · simp [Timer.elapsed_ms, he, h]

/-- A sample Timer that is inside an open scope: clock constantly 5,
one reading already consumed by entry, `start = 2`, `end` still `None`. -/
def runningSample : Timer :=
  { timer := fun _ => 5, tick := 1, start := some 2, end_ := some none,
    elapsed_s := none, elapsed_ms_attr := none }

/-- A sample Timer whose scope has exited: `start = 2`, `end = 9`. -/
def finishedSample : Timer :=
  { timer := fun _ => 5, tick := 2, start := some 2, end_ := some (some 9),
    elapsed_s := some 7, elapsed_ms_attr := some 7000 }

/-- Witness for C3 at the concrete running and finished sample Timers. -/
theorem elapsed_two_branch_witness :
    (runningSample.start = some 2 ∧ finishedSample.start = some 2) ∧
    (runningSample.elapsed.1 = Except.ok 3 ∧
     finishedSample.elapsed_ms.1 = Except.ok 7000) := by
  refine ⟨⟨rfl, rfl⟩, ?_, ?_⟩
  · have h := (elapsed_two_branch runningSample 2 rfl).1 rfl
    rw [h.1]
    norm_num [runningSample]
  · have h := (elapsed_two_branch finishedSample 2 rfl).2 9 rfl
    rw [h.2]
    norm_num

/-- C6: entering and then exiting a Timer whose bound time source is
monotone caches an elapsed-seconds value that is nonnegative and an
elapsed-milliseconds value exactly equal to it times 1000. -/
theorem exit_after_enter_nonneg_and_exact_ms (s : Timer) (a b c : Value)
    (hmono : ∀ n m, n ≤ m → s.timer n ≤ s.timer m) :
    ∃ es, (((s.enter).1.exit a b c).2.elapsed_s = some es ∧ 0 ≤ es) ∧
      ((s.enter).1.exit a b c).2.elapsed_ms_attr = some (es * 1000) := by
  refine ⟨s.timer (s.tick + 1) - s.timer s.tick, ⟨?_, ?_⟩, ?_⟩
  · simp [Timer.enter, Timer.exit, Timer.read]
  · have := hmono s.tick (s.tick + 1) (Nat.le_succ _)
    linarith
  · simp [Timer.enter, Timer.exit, Timer.read]

/-- Witness for C6 with the monotone clock `n ↦ n`. -/
theorem exit_after_enter_nonneg_and_exact_ms_witness :
    (∀ n m, n ≤ m →
      (Timer.init (fun k => (k : ℚ)) none).timer n ≤
        (Timer.init (fun k => (k : ℚ)) none).timer m) ∧
    (∃ es,
      ((((Timer.init (fun k => (k : ℚ)) none).enter).1.exit Value.noneVal
          Value.noneVal Value.noneVal).2.elapsed_s = some es ∧ 0 ≤ es) ∧
      (((Timer.init (fun k => (k : ℚ)) none).enter).1.exit Value.noneVal
          Value.noneVal Value.noneVal).2.elapsed_ms_attr = some (es * 1000)) :=
  ⟨fun n m h => by exact_mod_cast Nat.cast_le.mpr h,
   exit_after_enter_nonneg_and_exact_ms _ _ _ _
     (fun n m h => by exact_mod_cast Nat.cast_le.mpr h)⟩

/-- C9: after a successful `__exit__` the instance attribute `elapsed_ms`
is set, and attribute lookup of the name `elapsed_ms` yields that cached
number — never the method, so the name is no longer invokable; on a Timer
that has never exited (no cached attribute) the same lookup resolves to the
method. -/
theorem elapsed_ms_attribute_shadows_method (s : Timer) (st : ℚ)
    (a b c : Value) (h : s.start = some st) :
    (∃ q, (s.exit a b c).2.elapsed_ms_attr = some q ∧
      (s.exit a b c).2.getattrElapsedMs = Value.num q ∧
      ∀ nm, (s.exit a b c).2.getattrElapsedMs ≠ Value.method nm) ∧
    (s.elapsed_ms_attr = none →
      s.getattrElapsedMs = Value.method "elapsed_ms") := by
  constructor
  · refine ⟨(s.timer s.tick - st) * 1000, ?_, ?_, ?_⟩
    · simp [Timer.exit, Timer.read, h]
    · simp [Timer.exit, Timer.read, Timer.getattrElapsedMs, h]
    · intro nm
      simp [Timer.exit, Timer.read, Timer.getattrElapsedMs, h]
  · intro hnone
    simp [Timer.getattrElapsedMs, hnone]

/-- Witness for C9 at the concrete running sample Timer. -/
theorem elapsed_ms_attribute_shadows_method_witness :
    runningSample.start = some 2 ∧
    ((∃ q, (runningSample.exit Value.noneVal Value.noneVal
          Value.noneVal).2.elapsed_ms_attr = some q ∧
      (runningSample.exit Value.noneVal Value.noneVal
          Value.noneVal).2.getattrElapsedMs = Value.num q ∧
      ∀ nm, (runningSample.exit Value.noneVal Value.noneVal
          Value.noneVal).2.getattrElapsedMs ≠ Value.method nm) ∧
     (runningSample.elapsed_ms_attr = none →
       runningSample.getattrElapsedMs = Value.method "elapsed_ms")) :=
  ⟨rfl, elapsed_ms_attribute_shadows_method runningSample 2 _ _ _ rfl⟩

/-- C4: `__exit__` performs the same state update and returns the same value
for all values of its three exception-context arguments; whenever it returns
normally the result is `None`, which is falsy, so it never signals
suppression; hence an exception raised by a body (that leaves `start` alone)
propagates out of the `with` statement unchanged, while `end` and both
cached elapsed attributes are nonetheless populated. -/
theorem exit_ignores_args_and_propagates
    (s : Timer) (e : PyError) (body : Timer → Except PyError Value × Timer)
    (s2 : Timer) (hbody : body (s.enter).1 = (Except.error e, s2))
    (hstart : s2.start = (s.enter).1.start) :
    (∀ (u : Timer) (x y z x2 y2 z2 : Value), u.exit x y z = u.exit x2 y2 z2) ∧
    (∀ (u u2 : Timer) (x y z v : Value),
      u.exit x y z = (Except.ok v, u2) → v.truthy = false) ∧
    ((s.withStmt body).1 = Except.error e ∧
     (s.withStmt body).2.end_ = some (some (s2.timer s2.tick)) ∧
     (s.withStmt body).2.elapsed_s = some (s2.timer s2.tick - s.timer s.tick) ∧
     (s.withStmt body).2.elapsed_ms_attr =
       some ((s2.timer s2.tick - s.timer s.tick) * 1000)) := by
  have hst : s2.start = some (s.timer s.tick) := by
    rw [hstart]; rfl
  refine ⟨fun u x y z x2 y2 z2 => rfl, ?_, ?_⟩
  · intro u u2 x y z v h
    rcases hu : u.start with _ | st
    · simp [Timer.exit, Timer.read, hu] at h
    · simp [Timer.exit, Timer.read, hu] at h
      rw [← h.1]
      rfl
  · simp [Timer.withStmt, hbody, Timer.exit, Timer.read, hst, Value.truthy]

/-- A fresh Timer bound to the clock `k ↦ k`, used as a concrete input. -/
def freshSample : Timer := Timer.init (fun k => (k : ℚ)) none

/-- A `with`-block body that raises a user exception without touching the
Timer. -/
def raiseBody : Timer → Except PyError Value × Timer :=
  fun u => (Except.error (PyError.userExc 7), u)

/-- Witness for C4 at the fresh sample Timer with a raising body. -/
theorem exit_ignores_args_and_propagates_witness :
    (raiseBody (freshSample.enter).1 =
      (Except.error (PyError.userExc 7), (freshSample.enter).1) ∧
     (freshSample.enter).1.start = (freshSample.enter).1.start) ∧
    ((∀ (u : Timer) (x y z x2 y2 z2 : Value), u.exit x y z = u.exit x2 y2 z2) ∧
     (∀ (u u2 : Timer) (x y z v : Value),
       u.exit x y z = (Except.ok v, u2) → v.truthy = false) ∧
     ((freshSample.withStmt raiseBody).1 =
        Except.error (PyError.userExc 7) ∧
      (freshSample.withStmt raiseBody).2.end_ =
        some (some ((freshSample.enter).1.timer (freshSample.enter).1.tick)) ∧
      (freshSample.withStmt raiseBody).2.elapsed_s =
        some ((freshSample.enter).1.timer (freshSample.enter).1.tick -
          freshSample.timer freshSample.tick) ∧
      (freshSample.withStmt raiseBody).2.elapsed_ms_attr =
        some (((freshSample.enter).1.timer (freshSample.enter).1.tick -
          freshSample.timer freshSample.tick) * 1000))) :=
  ⟨⟨rfl, rfl⟩,
   exit_ignores_args_and_propagates freshSample (PyError.userExc 7)
     raiseBody (freshSample.enter).1 rfl rfl⟩

/-- C1 fails on the code: `__init__` discards its `timer` argument and binds
`default_timer` whatever was supplied.  Concretely, constructing with the
default source constantly 0 and a supplied custom source constantly 100
binds a source whose reading is 0, not the supplied source's 100. -/
theorem init_discards_supplied_source :
    (∀ d t, (Timer.init d t).timer = d) ∧
    (Timer.init (fun _ => 0) (some (fun _ => 100))).timer 0 = 0 ∧
    (fun _ : ℕ => (100 : ℚ)) 0 ≠
      (Timer.init (fun _ => 0) (some (fun _ => 100))).timer 0 := by
  refine ⟨fun d t => rfl, rfl, by norm_num [Timer.init]⟩

/-- The stub time source of the spec scenario: yields 100.0, then 100.5. -/
def stubSource : ℕ → ℚ := fun n => if n = 0 then 100 else 100.5

/-- A concrete stand-in for the platform default clock, reading 7, 8, 9, …
— distinct from the stub's values, as a real wall clock would be. -/
def platformClock : ℕ → ℚ := fun n => (n : ℚ) + 7

/-- C2 fails on the code: constructing with the stub source yielding 100.0
then 100.5 and opening then immediately closing the scope does not leave
`start = 100.0`, because `__init__` ignored the stub and bound the default
clock.  With the default clock reading 7 then 8, the run leaves
`start = 7 ≠ 100`, `end = 8 ≠ 100.5`, `elapsed_s = 1 ≠ 0.5` and
`elapsed_ms = 1000 ≠ 500`. -/
theorem stub_scenario_fails_on_code :
    (Timer.withStmt (Timer.init platformClock (some stubSource))
        (fun u => (Except.ok Value.noneVal, u))).2.start = some 7 ∧
    (Timer.withStmt (Timer.init platformClock (some stubSource))
        (fun u => (Except.ok Value.noneVal, u))).2.end_ = some (some 8) ∧
    (Timer.withStmt (Timer.init platformClock (some stubSource))
        (fun u => (Except.ok Value.noneVal, u))).2.elapsed_s = some 1 ∧
    (Timer.withStmt (Timer.init platformClock (some stubSource))
        (fun u => (Except.ok Value.noneVal, u))).2.elapsed_ms_attr =
      some 1000 ∧
    ((7 : ℚ) ≠ 100 ∧ (8 : ℚ) ≠ 100.5 ∧ (1 : ℚ) ≠ 0.5 ∧ (1000 : ℚ) ≠ 500) := by
  refine ⟨?_, ?_, ?_, ?_, by norm_num⟩ <;>
    simp [Timer.withStmt, Timer.init, Timer.enter, Timer.exit, Timer.read,
      platformClock, stubSource] <;> norm_num
